import Mathlib

/-!
Shallow embedding of the asynchronous socket I/O subsystem in
`src/lib/isc/unix/socket.c` (an ISC BIND socket layer), covering the parts
needed for the claims under verification: the `doio_recv`/`doio_send`
errno decision table, the completion-event delivery helpers
(`send_recvdone_event`, `send_senddone_event`), the queue-drain loop of
`internal_recv`, the inline paths of `isc_socket_recv`/`isc_socket_recvv`,
`isc_socket_connect`, `internal_connect`, `isc_socket_cancel`, and the
watcher's watch-bit recomputation.

Modelling conventions:
* Kernel syscall outcomes (`recvmsg`, `sendmsg`, `connect`, the
  `SO_ERROR` value read by `getsockopt`) are inputs to the model, given as
  an errno or a byte count.
* Tasks are identified by natural numbers; the payload bytes, socket
  addresses and ancillary (cmsg) data are not modelled since no claim
  depends on their contents.  The scatter/gather descriptor built by
  `build_msghdr_recv`/`build_msghdr_send` is represented by its one
  observable output, the byte count `read_count`/`write_count`, which for
  the single-region path equals `dev->region.length - dev->n`
  (`capacity - n` below).  The build is compiled without
  `ISC_NET_RECVOVERFLOW`, so no overflow iovec is appended.
* Mutation of the C structures becomes explicit state passing; the
  completion events handed to `isc_task_send`/`isc_task_sendanddetach`
  are accumulated in lists, in delivery order.
* `REQUIRE`/`INSIST` assertion failures (which abort the process) are
  modelled by `Option`: `none` means an assertion tripped.
-/

/-- `isc_result_t` values used by the socket code. -/
inductive IscResult where
  | success
  | connRefused
  | netUnreach
  | hostUnreach
  | noResources
  | unexpected
  | eof
  | canceled
  | timedOut
  | noMemory
deriving DecidableEq, Repr

/-- `isc_sockettype_t`: stream (TCP) or datagram (UDP). -/
inductive SocketType where
  | tcp
  | udp
deriving DecidableEq, Repr

/-- The errno values distinguished by the socket code.  `ezero` is the
spurious `errno == 0` case; `other n` stands for any errno the code does
not name (EPERM, EBADF, ...). -/
inductive Errno where
  | eagain
  | ewouldblock
  | eintr
  | ezero
  | econnrefused
  | enetunreach
  | ehostunreach
  | enobufs
  | einprogress
  | etimedout
  | other (n : Nat)
deriving DecidableEq, Repr

/-- The `SOFT_ERROR(e)` macro: EAGAIN, EWOULDBLOCK, EINTR, or errno 0. -/
def softError : Errno → Bool
  | .eagain => true
  | .ewouldblock => true
  | .eintr => true
  | .ezero => true
  | _ => false

/-- Event types relevant to the recv/send queues. -/
inductive EventType where
  | recvDone
  | sendDone
  | recvMark
  | sendMark
deriving DecidableEq, Repr

/-- An `isc_socketevent_t` request/completion event.  `capacity` is the
length of the caller's region (`dev->region.length`); `n` the bytes
transferred so far; `fatalError` / `attached` the
`ISC_SOCKEVENTATTR_FATALERROR` / `ISC_SOCKEVENTATTR_ATTACHED` attribute
bits. -/
structure SocketEvent where
  evType : EventType := .recvDone
  sender : Nat := 0
  result : IscResult := .unexpected
  n : Nat := 0
  minimum : Nat := 0
  capacity : Nat := 0
  fatalError : Bool := false
  attached : Bool := false
deriving DecidableEq, Repr

/-- An `isc_socket_connev_t` (the single connect slot's event). -/
structure ConnEvent where
  sender : Nat := 0
  result : IscResult := .unexpected
deriving DecidableEq, Repr

/-- The locked portion of `struct isc_socket` that the claims touch.
The accept queue only matters through its senders, so it is a list of
task ids. -/
structure Socket where
  type : SocketType := .tcp
  connected : Bool := false
  connecting : Bool := false
  listener : Bool := false
  pending_recv : Bool := false
  pending_send : Bool := false
  pending_accept : Bool := false
  recv_result : IscResult := .success
  send_result : IscResult := .success
  recv_list : List SocketEvent := []
  send_list : List SocketEvent := []
  accept_list : List Nat := []
  connect_ev : Option ConnEvent := none
deriving DecidableEq, Repr

/-- `allocate_socketevent`: fresh events carry result `ISC_R_UNEXPECTED`,
no bytes transferred, and no attribute bits. -/
def allocate_socketevent (evType : EventType) (sender : Nat) : SocketEvent :=
  { evType := evType, sender := sender, result := .unexpected,
    n := 0, minimum := 0, capacity := 0,
    fatalError := false, attached := false }

/-- `send_recvdone_event` without the list dequeue (the dequeue of the
concrete node is performed at each call site, mirroring
`ISC_LIST_DEQUEUE`): sets the result code and, when the socket's sticky
`recv_result` is not success, adds the FATALERROR attribute. -/
def deliver_recvdone (sock : Socket) (dev : SocketEvent) (code : IscResult) :
    SocketEvent :=
  { dev with result := code,
             fatalError := dev.fatalError || decide (sock.recv_result ≠ .success) }

/-- `send_senddone_event` counterpart of `deliver_recvdone`. -/
def deliver_senddone (sock : Socket) (dev : SocketEvent) (code : IscResult) :
    SocketEvent :=
  { dev with result := code,
             fatalError := dev.fatalError || decide (sock.send_result ≠ .success) }

/-- The `DOIO_*` outcome codes of `doio_recv` / `doio_send`. -/
inductive DoioCode where
  | success
  | soft
  | hard
  | eofCode
  | unexpectedCode
deriving DecidableEq, Repr

/-- Result bundle of a `doio_recv`/`doio_send` call: outcome code, the
socket (its sticky fields possibly updated), the request event (its `n`
possibly advanced), and the completion events emitted (zero or one). -/
structure DoioOut where
  res : DoioCode
  sock : Socket
  dev : SocketEvent
  events : List SocketEvent
deriving DecidableEq, Repr

/-- Outcome of a kernel I/O call: `err e` for a `-1` return with errno
`e`, `ok cc` for a return of `cc ≥ 0` bytes. -/
inductive SyscallResult where
  | err (e : Errno)
  | ok (cc : Nat)
deriving DecidableEq, Repr

/-- The `SOFT_OR_HARD(_system, _isc)` macro body in `doio_recv`: on a
connected socket the mapped code is delivered (becoming sticky only when
the type is TCP) and the outcome is HARD; otherwise SOFT. -/
def soft_or_hard_recv (sock : Socket) (dev : SocketEvent) (code : IscResult) :
    DoioOut :=
  if sock.connected then
    let sock' := if sock.type = .tcp then { sock with recv_result := code } else sock
    ⟨.hard, sock', dev, [deliver_recvdone sock' dev code]⟩
  else
    ⟨.soft, sock, dev, []⟩

/-- The `SOFT_OR_HARD(_system, _isc)` macro body in `doio_send`. -/
def soft_or_hard_send (sock : Socket) (dev : SocketEvent) (code : IscResult) :
    DoioOut :=
  if sock.connected then
    let sock' := if sock.type = .tcp then { sock with send_result := code } else sock
    ⟨.hard, sock', dev, [deliver_senddone sock' dev code]⟩
  else
    ⟨.soft, sock, dev, []⟩

/-- `doio_recv(sock, dev)` with the `recvmsg` outcome made explicit.
Follows the source decision table line by line: soft errno → SOFT;
ECONNREFUSED/ENETUNREACH/EHOSTUNREACH → `SOFT_OR_HARD`; ENOBUFS →
NoResources event, HARD; any other errno → sticky `recv_result :=
Unexpected`, Unexpected event, SUCCESS; `cc == 0` on TCP → sticky
EOF, outcome EOF with no event; otherwise the byte count is added to
`dev->n` and a short read below `minimum` is SOFT, else a Success event
is emitted. -/
def doio_recv (sock : Socket) (dev : SocketEvent) (sys : SyscallResult) :
    DoioOut :=
  let rc := dev.capacity - dev.n
  match sys with
  | .err e =>
    if softError e then ⟨.soft, sock, dev, []⟩
    else if e = .econnrefused then soft_or_hard_recv sock dev .connRefused
    else if e = .enetunreach then soft_or_hard_recv sock dev .netUnreach
    else if e = .ehostunreach then soft_or_hard_recv sock dev .hostUnreach
    else if e = .enobufs then
      ⟨.hard, sock, dev, [deliver_recvdone sock dev .noResources]⟩
    else
      let sock' := { sock with recv_result := .unexpected }
      ⟨.success, sock', dev, [deliver_recvdone sock' dev .unexpected]⟩
  | .ok cc =>
    if sock.type = .tcp ∧ cc = 0 then
      ⟨.eofCode, { sock with recv_result := .eof }, dev, []⟩
    else
      let dev' := { dev with n := dev.n + cc }
      if cc ≠ rc ∧ dev'.n < dev'.minimum then
        ⟨.soft, sock, dev', []⟩
      else
        ⟨.success, sock, dev', [deliver_recvdone sock dev' .success]⟩

/-- `doio_send(sock, dev)` with the `sendmsg` outcome made explicit.
Identical errno table except that the final unexpected-errno branch
returns HARD (where `doio_recv` returns SUCCESS), and a zero/short write
is SOFT. -/
def doio_send (sock : Socket) (dev : SocketEvent) (sys : SyscallResult) :
    DoioOut :=
  let wc := dev.capacity - dev.n
  match sys with
  | .err e =>
    if softError e then ⟨.soft, sock, dev, []⟩
    else if e = .econnrefused then soft_or_hard_send sock dev .connRefused
    else if e = .enetunreach then soft_or_hard_send sock dev .netUnreach
    else if e = .ehostunreach then soft_or_hard_send sock dev .hostUnreach
    else if e = .enobufs then
      ⟨.hard, sock, dev, [deliver_senddone sock dev .noResources]⟩
    else
      let sock' := { sock with send_result := .unexpected }
      ⟨.hard, sock', dev, [deliver_senddone sock' dev .unexpected]⟩
  | .ok cc =>
    let dev' := { dev with n := dev.n + cc }
    if cc ≠ wc then
      ⟨.soft, sock, dev', []⟩
    else
      ⟨.success, sock, dev', [deliver_senddone sock dev' .success]⟩

/-- Result bundle of the `internal_recv` queue-drain loop: final socket,
completion events delivered (in delivery order), and the number of
`recvmsg` kernel calls made (i.e. calls to `doio_recv`). -/
structure DrainOut where
  sock : Socket
  events : List SocketEvent
  kernelCalls : Nat
deriving DecidableEq, Repr

/-- The drain loop of `internal_recv`, with the queue passed structurally
(the loop only ever inspects the head of `sock->recv_list` and dequeues
completed entries, which the recursion mirrors).  `sys` supplies the
outcome of each successive `recvmsg`; when the list runs out the loop
stops as if the kernel returned EAGAIN (never reached by the theorems
below).  Marker events complete with the sticky result; a non-success
sticky `recv_result` completes the request without calling `doio_recv`;
otherwise `doio_recv` runs: SOFT stops the loop (the request stays
queued), EOF completes every queued request with `ISC_R_EOF`, and the
remaining outcomes (event already sent) continue with the next entry. -/
def internal_recv_loop (sock : Socket) (queue : List SocketEvent)
    (sys : List SyscallResult) : DrainOut :=
  match queue with
  | [] => ⟨{ sock with recv_list := [] }, [], 0⟩
  | dev :: rest =>
    if dev.evType = .recvMark then
      let ev := deliver_recvdone sock dev sock.recv_result
      let out := internal_recv_loop sock rest sys
      ⟨out.sock, ev :: out.events, out.kernelCalls⟩
    else if sock.recv_result ≠ .success then
      let ev := deliver_recvdone sock dev sock.recv_result
      let out := internal_recv_loop sock rest sys
      ⟨out.sock, ev :: out.events, out.kernelCalls⟩
    else
      match sys with
      | [] => ⟨{ sock with recv_list := dev :: rest }, [], 0⟩
      | o :: os =>
        let d := doio_recv sock dev o
        match d.res with
        | .soft => ⟨{ d.sock with recv_list := d.dev :: rest }, [], 1⟩
        | .eofCode =>
          let cascade := (dev :: rest).map
            (fun x => deliver_recvdone d.sock x .eof)
          ⟨{ d.sock with recv_list := [] }, cascade, 1⟩
        | _ =>
          let out := internal_recv_loop d.sock rest os
          ⟨out.sock, d.events ++ out.events, 1 + out.kernelCalls⟩

/-- `internal_recv` after the `pending_recv`/reference bookkeeping:
drains the socket's recv queue. -/
def internal_recv (sock : Socket) (sys : List SyscallResult) : DrainOut :=
  internal_recv_loop sock sock.recv_list sys

/-- Result bundle of an inline API call (`isc_socket_recv` etc.): the
value returned to the caller, the socket afterwards, the completion
events posted, the number of kernel I/O calls made, and whether the
watcher was poked. -/
structure InlineOut where
  ret : IscResult
  sock : Socket
  events : List SocketEvent
  kernelCalls : Nat
  poked : Bool
deriving DecidableEq, Repr

/-- `isc_socket_recv(sock, region, minimum, task, ...)`: allocates the
request event (UDP forces `minimum` to 1; stream `minimum = 0` means
fill the region), and if the queue is empty tries the I/O inline after
checking the sticky `recv_result`; a SOFT outcome (or non-empty queue)
queues the request, poking the watcher when the queue was empty. -/
def isc_socket_recv (sock : Socket) (capacity minimum task : Nat)
    (sys : SyscallResult) : InlineOut :=
  let dev0 := allocate_socketevent .recvDone task
  let dev := { dev0 with
    minimum := if sock.type = .udp then 1
               else if minimum = 0 then capacity else minimum,
    result := .success, n := 0, capacity := capacity }
  let wasEmpty := sock.recv_list.isEmpty
  let queueIt : Socket → SocketEvent → InlineOut := fun s d =>
    let d' := { d with attached := true }
    ⟨.success, { s with recv_list := s.recv_list ++ [d'] }, [], 0, wasEmpty⟩
  if ¬ wasEmpty then
    queueIt sock dev
  else if sock.recv_result ≠ .success then
    ⟨.success, sock, [deliver_recvdone sock dev sock.recv_result], 0, false⟩
  else
    let d := doio_recv sock dev sys
    match d.res with
    | .soft =>
      let d' := { d.dev with attached := true }
      ⟨.success, { d.sock with recv_list := d.sock.recv_list ++ [d'] },
       [], 1, wasEmpty⟩
    | .eofCode =>
      ⟨.success, d.sock, [deliver_recvdone d.sock d.dev .eof], 1, false⟩
    | _ =>
      ⟨.success, d.sock, d.events, 1, false⟩

/-- `isc_socket_recvv(sock, buflist, minimum, task, ...)`: identical
decision structure to `isc_socket_recv`; `capacity` stands for the
buffer list's total available count (`iocount`), and unlike the region
variant the fresh event's `result` field keeps the allocation default
`ISC_R_UNEXPECTED`. -/
def isc_socket_recvv (sock : Socket) (capacity minimum task : Nat)
    (sys : SyscallResult) : InlineOut :=
  let dev0 := allocate_socketevent .recvDone task
  let dev := { dev0 with
    minimum := if sock.type = .udp then 1
               else if minimum = 0 then capacity else minimum,
    capacity := capacity }
  let wasEmpty := sock.recv_list.isEmpty
  if ¬ wasEmpty then
    let d' := { dev with attached := true }
    ⟨.success, { sock with recv_list := sock.recv_list ++ [d'] }, [], 0, wasEmpty⟩
  else if sock.recv_result ≠ .success then
    ⟨.success, sock, [deliver_recvdone sock dev sock.recv_result], 0, false⟩
  else
    let d := doio_recv sock dev sys
    match d.res with
    | .soft =>
      let d' := { d.dev with attached := true }
      ⟨.success, { d.sock with recv_list := d.sock.recv_list ++ [d'] },
       [], 1, wasEmpty⟩
    | .eofCode =>
      ⟨.success, d.sock, [deliver_recvdone d.sock d.dev .eof], 1, false⟩
    | _ =>
      ⟨.success, d.sock, d.events, 1, false⟩

/-- Outcome of the inline `connect(2)` call inside `isc_socket_connect`:
an errno, or immediate success (return 0). -/
inductive ConnectSys where
  | err (e : Errno)
  | ok
deriving DecidableEq, Repr

/-- Result bundle of `isc_socket_connect`: value returned to the caller,
socket afterwards, connect completion events posted, poke flag. -/
structure ConnectOut where
  ret : IscResult
  sock : Socket
  events : List ConnEvent
  poked : Bool
deriving DecidableEq, Repr

/-- `isc_socket_connect(sock, addr, task, ...)`.  `REQUIRE(!sock->connecting)`
is the `none` case.  Soft errno or EINPROGRESS queues the single connect
event and sets `connecting`; ECONNREFUSED/ENETUNREACH post a completion
carrying the mapped code and return success; any other hard errno
returns `ISC_R_UNEXPECTED` with no event; an immediate `connect` success
posts a Success completion and sets `connected`. -/
def isc_socket_connect (sock : Socket) (task : Nat) (sys : ConnectSys) :
    Option ConnectOut :=
  if sock.connecting then none
  else
    let dev : ConnEvent := { sender := task, result := .unexpected }
    match sys with
    | .err e =>
      if softError e || e = .einprogress then
        let poked := sock.connect_ev = none
        some ⟨.success,
              { sock with connecting := true, connect_ev := some dev },
              [], poked⟩
      else if e = .econnrefused then
        some ⟨.success, { sock with connected := false },
              [{ dev with result := .connRefused }], false⟩
      else if e = .enetunreach then
        some ⟨.success, { sock with connected := false },
              [{ dev with result := .netUnreach }], false⟩
      else
        some ⟨.unexpected, { sock with connected := false }, [], false⟩
    | .ok =>
      some ⟨.success, { sock with connected := true },
            [{ dev with result := .success }], false⟩

/-- Result bundle of `internal_connect`: socket afterwards, completion
events delivered, poke flag. -/
structure IConnectOut where
  sock : Socket
  events : List ConnEvent
  poked : Bool
deriving DecidableEq, Repr

/-- `internal_connect`, after the reference bookkeeping.  `so` is the
`SO_ERROR` value read back (`none` = 0 = success).  A missing
`connect_ev` means the event was cancelled, in which case the code
INSISTs `!connecting`; a present one INSISTs `connecting` (the `none`
cases).  Soft errno re-arms `connecting` and pokes; otherwise the errno
is mapped and the completion delivered with the slot cleared. -/
def internal_connect (sock : Socket) (so : Option Errno) :
    Option IConnectOut :=
  match sock.connect_ev with
  | none =>
    if sock.connecting then none
    else some ⟨sock, [], false⟩
  | some dev =>
    if ¬ sock.connecting then none
    else
      let sock' := { sock with connecting := false }
      match so with
      | some e =>
        if softError e || e = .einprogress then
          some ⟨{ sock' with connecting := true }, [], true⟩
        else
          let code := if e = .etimedout then IscResult.timedOut
                      else if e = .econnrefused then IscResult.connRefused
                      else if e = .enetunreach then IscResult.netUnreach
                      else IscResult.unexpected
          some ⟨{ sock' with connect_ev := none },
                [{ dev with result := code }], false⟩
      | none =>
        some ⟨{ sock' with connect_ev := none },
              [{ dev with result := .success }], false⟩

/-- The `how` bitmask of `isc_socket_cancel` (`ISC_SOCKCANCEL_*`). -/
structure CancelHow where
  recv : Bool := false
  send : Bool := false
  accept : Bool := false
  connect : Bool := false
deriving DecidableEq, Repr

/-- Whether a queued request with sender `s` is selected by the cancel:
`task == NULL` cancels every request, otherwise only those whose sender
matches. -/
def cancelMatch (task : Option Nat) (s : Nat) : Bool :=
  match task with
  | none => true
  | some t => t = s

/-- Result bundle of `isc_socket_cancel`: socket afterwards, the
cancelled recv/send completions, the senders of cancelled accepts, the
cancelled connect completion, and whether the watcher was poked. -/
structure CancelOut where
  sock : Socket
  recvEvents : List SocketEvent
  sendEvents : List SocketEvent
  acceptCancelled : List Nat
  connectEvents : List ConnEvent
  poked : Bool
deriving DecidableEq, Repr

/-- `isc_socket_cancel(sock, task, how)`.  `how == 0` returns before
doing anything (no lock, no poke).  Each selected category's queue is
scanned and matching requests complete with `ISC_R_CANCELED`.  The
connect branch INSISTs `connecting` (the `none` case), clears
`connecting` unconditionally, but clears `connect_ev` and delivers the
completion only when the task matches.  A poke is issued at the end of
every run that passed the quick exit. -/
def isc_socket_cancel (sock : Socket) (task : Option Nat) (how : CancelHow) :
    Option CancelOut :=
  if how = {} then
    some ⟨sock, [], [], [], [], false⟩
  else
    let (rl, revs) :=
      if how.recv ∧ ¬ sock.recv_list.isEmpty then
        (sock.recv_list.filter (fun d => ¬ cancelMatch task d.sender),
         (sock.recv_list.filter (fun d => cancelMatch task d.sender)).map
           (fun d => deliver_recvdone sock d .canceled))
      else (sock.recv_list, [])
    let (sl, sevs) :=
      if how.send ∧ ¬ sock.send_list.isEmpty then
        (sock.send_list.filter (fun d => ¬ cancelMatch task d.sender),
         (sock.send_list.filter (fun d => cancelMatch task d.sender)).map
           (fun d => deliver_senddone sock d .canceled))
      else (sock.send_list, [])
    let (al, aevs) :=
      if how.accept ∧ ¬ sock.accept_list.isEmpty then
        (sock.accept_list.filter (fun s => ¬ cancelMatch task s),
         sock.accept_list.filter (fun s => cancelMatch task s))
      else (sock.accept_list, [])
    let sock := { sock with recv_list := rl, send_list := sl, accept_list := al }
    if how.connect ∧ sock.connect_ev ≠ none then
      match sock.connect_ev with
      | none => none
      | some dev =>
        if ¬ sock.connecting then none
        else
          let sock := { sock with connecting := false }
          if cancelMatch task dev.sender then
            some ⟨{ sock with connect_ev := none }, revs, sevs, aevs,
                  [{ dev with result := .canceled }], true⟩
          else
            some ⟨sock, revs, sevs, aevs, [], true⟩
    else
      some ⟨sock, revs, sevs, aevs, [], true⟩

/-- The watcher's write-bit recomputation on an fd poke message: the
source clears the bit when `(send_list empty OR pending_send) AND NOT
connecting`, and sets it otherwise. -/
def watcher_write_bit (sock : Socket) : Bool :=
  if (sock.send_list.isEmpty || sock.pending_send) && !sock.connecting then
    false
  else
    true

/-- Modelled from the spec: the spec's stated write-bit rule "set the
write bit iff ((send queue non-empty OR `connecting`) AND NOT
`pending_send`)", for comparison with `watcher_write_bit` taken from the
source. -/
def spec_write_bit (sock : Socket) : Bool :=
  (!sock.send_list.isEmpty || sock.connecting) && !sock.pending_send

/-- The invariant of spec §3 (c), first equivalence:
`connecting ⇔ connect_ev ≠ ∅`. -/
def connectInv (sock : Socket) : Prop :=
  sock.connecting = true ↔ sock.connect_ev ≠ none

instance (sock : Socket) : Decidable (connectInv sock) := by
  unfold connectInv
  infer_instance

/-- Helper: when the sticky `recv_result` is not success, the
`internal_recv` drain loop completes every queued entry (markers and
requests alike) with the sticky code and never calls `doio_recv`. -/
theorem internal_recv_loop_sticky (sock : Socket) (queue : List SocketEvent)
    (sys : List SyscallResult) (h : sock.recv_result ≠ .success) :
    (internal_recv_loop sock queue sys).kernelCalls = 0 ∧
    ∀ ev ∈ (internal_recv_loop sock queue sys).events,
      ev.result = sock.recv_result := by
  induction queue with
  | nil => simp [internal_recv_loop]
  | cons dev rest ih =>
    obtain ⟨ihk, ihe⟩ := ih
    by_cases hm : dev.evType = .recvMark
    · refine ⟨by simpa [internal_recv_loop, hm] using ihk, ?_⟩
      intro ev hev
      simp only [internal_recv_loop, hm, if_true] at hev
      rcases List.mem_cons.mp hev with rfl | hev
      · simp [deliver_recvdone]
      · exact ihe ev hev
    · refine ⟨by simpa [internal_recv_loop, hm, h] using ihk, ?_⟩
      intro ev hev
      simp only [internal_recv_loop, hm, h, ite_false, ne_eq,
        not_false_eq_true, ite_true] at hev
      rcases List.mem_cons.mp hev with rfl | hev
      · simp [deliver_recvdone]
      · exact ihe ev hev

/-- C1: once a stream socket's sticky `recv_result` is non-success, every
recv request processed on it completes with exactly that code and no
`recvmsg` call is made: the drain loop of `internal_recv` makes zero
kernel calls and stamps the sticky code on every completion, the inline
paths of `isc_socket_recv`/`isc_socket_recvv` on an idle queue deliver a
single completion with the sticky code without touching the kernel, and
with a non-empty queue they queue the request, again without a kernel
call. -/
theorem c1_sticky_recv_replay (sock : Socket) (sys : List SyscallResult)
    (cap mini task : Nat) (s1 : SyscallResult)
    (htcp : sock.type = .tcp) (h : sock.recv_result ≠ .success) :
    ((internal_recv sock sys).kernelCalls = 0 ∧
      ∀ ev ∈ (internal_recv sock sys).events, ev.result = sock.recv_result) ∧
    (sock.recv_list = [] →
      (isc_socket_recv sock cap mini task s1).kernelCalls = 0 ∧
      (isc_socket_recv sock cap mini task s1).events.map SocketEvent.result
        = [sock.recv_result] ∧
      (isc_socket_recvv sock cap mini task s1).kernelCalls = 0 ∧
      (isc_socket_recvv sock cap mini task s1).events.map SocketEvent.result
        = [sock.recv_result]) ∧
    (sock.recv_list ≠ [] →
      (isc_socket_recv sock cap mini task s1).kernelCalls = 0 ∧
      (isc_socket_recvv sock cap mini task s1).kernelCalls = 0) := by
  refine ⟨internal_recv_loop_sticky sock sock.recv_list sys h, ?_, ?_⟩
  · intro hq
    have he : sock.recv_list.isEmpty = true := by simp [hq]
    simp [isc_socket_recv, isc_socket_recvv, he, h, deliver_recvdone]
  · intro hq
    have he : sock.recv_list.isEmpty = false := by
      simpa [List.isEmpty_iff] using hq
    simp [isc_socket_recv, isc_socket_recvv, he]

/-- Concrete socket used to witness `c1_sticky_recv_replay`: a TCP
socket whose sticky `recv_result` is EOF with one request and one
marker queued. -/
def c1sock : Socket :=
  { type := .tcp, recv_result := .eof,
    recv_list := [{ evType := .recvDone, sender := 3 },
                  { evType := .recvMark, sender := 4 }] }

/-- Witness for `c1_sticky_recv_replay` at `c1sock`. -/
theorem c1_sticky_recv_replay_witness :
    c1sock.type = .tcp ∧ c1sock.recv_result ≠ .success ∧
    (((internal_recv c1sock []).kernelCalls = 0 ∧
       ∀ ev ∈ (internal_recv c1sock []).events, ev.result = c1sock.recv_result) ∧
     (c1sock.recv_list = [] →
       (isc_socket_recv c1sock 8 0 5 (.ok 0)).kernelCalls = 0 ∧
       (isc_socket_recv c1sock 8 0 5 (.ok 0)).events.map SocketEvent.result
         = [c1sock.recv_result] ∧
       (isc_socket_recvv c1sock 8 0 5 (.ok 0)).kernelCalls = 0 ∧
       (isc_socket_recvv c1sock 8 0 5 (.ok 0)).events.map SocketEvent.result
         = [c1sock.recv_result]) ∧
     (c1sock.recv_list ≠ [] →
       (isc_socket_recv c1sock 8 0 5 (.ok 0)).kernelCalls = 0 ∧
       (isc_socket_recvv c1sock 8 0 5 (.ok 0)).kernelCalls = 0)) :=
  ⟨by decide, by decide,
   c1_sticky_recv_replay c1sock [] 8 0 5 (.ok 0) (by decide) (by decide)⟩

/-- C2: for a `recvmsg` failure whose errno is neither soft, nor
ECONNREFUSED/ENETUNREACH/EHOSTUNREACH, nor ENOBUFS, `doio_recv` sets the
sticky `recv_result` to Unexpected, emits a completion carrying
Unexpected, and returns DOIO_SUCCESS — while `doio_send` in the
analogous branch returns DOIO_HARD. -/
theorem c2_unexpected_branch (sock : Socket) (dev : SocketEvent) (e : Errno)
    (hs : softError e = false)
    (h1 : e ≠ .econnrefused) (h2 : e ≠ .enetunreach)
    (h3 : e ≠ .ehostunreach) (h4 : e ≠ .enobufs) :
    (doio_recv sock dev (.err e)).res = .success ∧
    (doio_recv sock dev (.err e)).sock.recv_result = .unexpected ∧
    (doio_recv sock dev (.err e)).events.map SocketEvent.result
      = [.unexpected] ∧
    (doio_send sock dev (.err e)).res = .hard ∧
    (doio_send sock dev (.err e)).sock.send_result = .unexpected ∧
    (doio_send sock dev (.err e)).events.map SocketEvent.result
      = [.unexpected] := by
  simp [doio_recv, doio_send, hs, h1, h2, h3, h4,
        deliver_recvdone, deliver_senddone]

/-- Witness for `c2_unexpected_branch` at a default socket and errno
`other 0` (e.g. EPERM). -/
theorem c2_unexpected_branch_witness :
    softError (.other 0) = false ∧
    ((doio_recv {} {} (.err (.other 0))).res = .success ∧
     (doio_recv {} {} (.err (.other 0))).sock.recv_result = .unexpected ∧
     (doio_recv {} {} (.err (.other 0))).events.map SocketEvent.result
       = [.unexpected] ∧
     (doio_send {} {} (.err (.other 0))).res = .hard ∧
     (doio_send {} {} (.err (.other 0))).sock.send_result = .unexpected ∧
     (doio_send {} {} (.err (.other 0))).events.map SocketEvent.result
       = [.unexpected]) :=
  ⟨by decide,
   c2_unexpected_branch {} {} (.other 0) (by decide) (by decide) (by decide)
     (by decide) (by decide)⟩

/-- C3 counterexample: on a datagram socket a `recvmsg` failure with an
unnamed errno (here `other 1`) is not treated as soft — `doio_recv`
emits a completion event and returns DOIO_SUCCESS, contradicting the
claim that every datagram kernel error other than ENOBUFS is soft with
no event. -/
theorem c3_counterexample :
    (doio_recv { type := .udp } {} (.err (.other 1))).res ≠ DoioCode.soft ∧
    (doio_recv { type := .udp } {} (.err (.other 1))).events ≠ [] := by
  decide

/-- C3 as amended: on a datagram socket the
ECONNREFUSED/ENETUNREACH/EHOSTUNREACH errors are soft (no event, SOFT)
exactly when the socket is not connected — on a connected datagram they
emit the mapped code and return HARD, leaving the sticky result
unchanged; ENOBUFS always emits NoResources and returns HARD; any other
non-soft errno emits a completion carrying Unexpected and sets the
sticky result, with `doio_recv` returning DOIO_SUCCESS and `doio_send`
DOIO_HARD. -/
theorem c3_amended_datagram_errors (sock : Socket) (dev : SocketEvent)
    (e : Errno) (hudp : sock.type = .udp) (hs : softError e = false) :
    (∀ code : IscResult,
      ((e = .econnrefused ∧ code = .connRefused) ∨
       (e = .enetunreach ∧ code = .netUnreach) ∨
       (e = .ehostunreach ∧ code = .hostUnreach)) →
      (sock.connected = false →
        (doio_recv sock dev (.err e)).res = .soft ∧
        (doio_recv sock dev (.err e)).events = [] ∧
        (doio_send sock dev (.err e)).res = .soft ∧
        (doio_send sock dev (.err e)).events = []) ∧
      (sock.connected = true →
        (doio_recv sock dev (.err e)).res = .hard ∧
        (doio_recv sock dev (.err e)).events.map SocketEvent.result
          = [code] ∧
        (doio_recv sock dev (.err e)).sock.recv_result = sock.recv_result ∧
        (doio_send sock dev (.err e)).res = .hard ∧
        (doio_send sock dev (.err e)).events.map SocketEvent.result
          = [code] ∧
        (doio_send sock dev (.err e)).sock.send_result = sock.send_result)) ∧
    (e = .enobufs →
      (doio_recv sock dev (.err e)).res = .hard ∧
      (doio_recv sock dev (.err e)).events.map SocketEvent.result
        = [.noResources] ∧
      (doio_send sock dev (.err e)).res = .hard ∧
      (doio_send sock dev (.err e)).events.map SocketEvent.result
        = [.noResources]) ∧
    (e ≠ .econnrefused → e ≠ .enetunreach → e ≠ .ehostunreach →
     e ≠ .enobufs →
      (doio_recv sock dev (.err e)).res = .success ∧
      (doio_recv sock dev (.err e)).events.map SocketEvent.result
        = [.unexpected] ∧
      (doio_recv sock dev (.err e)).sock.recv_result = .unexpected ∧
      (doio_send sock dev (.err e)).res = .hard ∧
      (doio_send sock dev (.err e)).events.map SocketEvent.result
        = [.unexpected] ∧
      (doio_send sock dev (.err e)).sock.send_result = .unexpected) := by
  refine ⟨?_, ?_, ?_⟩
  · rintro code (⟨rfl, rfl⟩ | ⟨rfl, rfl⟩ | ⟨rfl, rfl⟩) <;>
      refine ⟨fun hc => ?_, fun hc => ?_⟩ <;>
      simp [doio_recv, doio_send, soft_or_hard_recv, soft_or_hard_send,
            softError, hc, hudp, deliver_recvdone, deliver_senddone]
  · rintro rfl
    simp [doio_recv, doio_send, softError, deliver_recvdone,
          deliver_senddone]
  · intro h1 h2 h3 h4
    simp [doio_recv, doio_send, hs, h1, h2, h3, h4,
          deliver_recvdone, deliver_senddone]

/-- Witness for `c3_amended_datagram_errors` at a connected datagram
socket and errno ECONNREFUSED. -/
theorem c3_amended_datagram_errors_witness :
    (({ type := .udp, connected := true } : Socket).type = SocketType.udp ∧
     softError .econnrefused = false) ∧
    ((doio_recv { type := .udp, connected := true } {}
        (.err .econnrefused)).res = .hard ∧
     (doio_recv { type := .udp, connected := true } {}
        (.err .econnrefused)).events.map SocketEvent.result
       = [.connRefused] ∧
     (doio_recv { type := .udp, connected := true } {}
        (.err .econnrefused)).sock.recv_result
       = ({ type := .udp, connected := true } : Socket).recv_result ∧
     (doio_send { type := .udp, connected := true } {}
        (.err .econnrefused)).res = .hard ∧
     (doio_send { type := .udp, connected := true } {}
        (.err .econnrefused)).events.map SocketEvent.result
       = [.connRefused] ∧
     (doio_send { type := .udp, connected := true } {}
        (.err .econnrefused)).sock.send_result
       = ({ type := .udp, connected := true } : Socket).send_result) :=
  ⟨⟨by decide, by decide⟩,
   ((c3_amended_datagram_errors { type := .udp, connected := true } {}
       .econnrefused (by decide) (by decide)).1 .connRefused
      (Or.inl ⟨rfl, rfl⟩)).2 rfl⟩

/-- C4: when `recvmsg` returns 0 on a stream socket while `internal_recv`
drains, every request then queued on the recv list, including markers,
is dequeued and completed with EOF in queue order (each completion also
carries the FATALERROR attribute since `recv_result` is EOF by delivery
time), the sticky `recv_result` becomes EOF, and the queue is left
empty after one kernel call. -/
theorem c4_eof_cascade (sock : Socket) (dev : SocketEvent)
    (rest : List SocketEvent) (sys : List SyscallResult)
    (htcp : sock.type = .tcp) (hok : sock.recv_result = .success)
    (hq : sock.recv_list = dev :: rest) (hm : dev.evType ≠ .recvMark) :
    (internal_recv sock (.ok 0 :: sys)).events
      = (dev :: rest).map
          (fun d => { d with result := .eof, fatalError := true }) ∧
    (internal_recv sock (.ok 0 :: sys)).sock.recv_result = .eof ∧
    (internal_recv sock (.ok 0 :: sys)).sock.recv_list = [] ∧
    (internal_recv sock (.ok 0 :: sys)).kernelCalls = 1 := by
  simp only [internal_recv, hq]
  simp [internal_recv_loop, hm, hok, doio_recv, htcp, deliver_recvdone]

/-- Concrete socket used to witness `c4_eof_cascade`: a stream socket
with one pending recv request and one marker queued. -/
def c4sock : Socket :=
  { type := .tcp,
    recv_list := [{ evType := .recvDone, sender := 1, capacity := 4 },
                  { evType := .recvMark, sender := 2 }] }

/-- Witness for `c4_eof_cascade` at `c4sock`. -/
theorem c4_eof_cascade_witness :
    c4sock.type = .tcp ∧ c4sock.recv_result = .success ∧
    c4sock.recv_list
      = [{ evType := .recvDone, sender := 1, capacity := 4 },
         { evType := .recvMark, sender := 2 }] ∧
    ((internal_recv c4sock [.ok 0]).events
       = [{ evType := .recvDone, sender := 1, capacity := 4,
            result := .eof, fatalError := true },
          { evType := .recvMark, sender := 2,
            result := .eof, fatalError := true }] ∧
     (internal_recv c4sock [.ok 0]).sock.recv_result = .eof ∧
     (internal_recv c4sock [.ok 0]).sock.recv_list = [] ∧
     (internal_recv c4sock [.ok 0]).kernelCalls = 1) :=
  ⟨by decide, by decide, by decide, by
    have h := c4_eof_cascade c4sock
      { evType := .recvDone, sender := 1, capacity := 4 }
      [{ evType := .recvMark, sender := 2 }] []
      (by decide) (by decide) (by decide) (by decide)
    simpa using h⟩

/-- C5: an inline connect attempt that fails with a non-soft,
non-EINPROGRESS errno posts a completion carrying ConnRefused (resp.
NetUnreach) and returns Success to the caller when errno is
ECONNREFUSED (resp. ENETUNREACH); any other hard errno makes the call
return Unexpected synchronously with no event posted. -/
theorem c5_connect_inline_errors (sock : Socket) (task : Nat) (e : Errno)
    (hc : sock.connecting = false)
    (hs : softError e = false) (hip : e ≠ .einprogress) :
    (e = .econnrefused →
      isc_socket_connect sock task (.err e)
        = some ⟨.success, { sock with connected := false },
                [{ sender := task, result := .connRefused }], false⟩) ∧
    (e = .enetunreach →
      isc_socket_connect sock task (.err e)
        = some ⟨.success, { sock with connected := false },
                [{ sender := task, result := .netUnreach }], false⟩) ∧
    (e ≠ .econnrefused → e ≠ .enetunreach →
      isc_socket_connect sock task (.err e)
        = some ⟨.unexpected, { sock with connected := false }, [], false⟩) := by
  refine ⟨?_, ?_, ?_⟩
  · rintro rfl
    simp [isc_socket_connect, hc, softError]
  · rintro rfl
    simp [isc_socket_connect, hc, softError]
  · intro h1 h2
    simp [isc_socket_connect, hc, hs, hip, h1, h2]

/-- Witness for `c5_connect_inline_errors` at a fresh socket and errno
ECONNREFUSED. -/
theorem c5_connect_inline_errors_witness :
    (({} : Socket).connecting = false ∧ softError .econnrefused = false ∧
     Errno.econnrefused ≠ Errno.einprogress) ∧
    isc_socket_connect {} 7 (.err .econnrefused)
      = some ⟨.success, { connected := false },
              [{ sender := 7, result := .connRefused }], false⟩ :=
  ⟨⟨by decide, by decide, by decide⟩,
   (c5_connect_inline_errors {} 7 .econnrefused (by decide) (by decide)
      (by decide)).1 rfl⟩

/-- State reached before the C6 failing call: a socket with a connect
in flight, its connect event queued by task 1. -/
def c6sock : Socket :=
  { connecting := true, connect_ev := some { sender := 1 } }

/-- C6: evaluation at the failing input.  Cancelling the connect
category from a task (2) that does not match the connect event's sender
(1) clears `connecting` but leaves `connect_ev` in place, breaking the
invariant `connecting ⇔ connect_ev ≠ ∅`; the queued writable event then
makes `internal_connect` trip its `INSIST(sock->connecting)` (the
`none` outcome). -/
theorem c6_cancel_breaks_connect_inv :
    isc_socket_cancel c6sock (some 2) { connect := true }
      = some ⟨{ c6sock with connecting := false }, [], [], [], [], true⟩ ∧
    ¬ connectInv { c6sock with connecting := false } ∧
    internal_connect { c6sock with connecting := false }
      (some .econnrefused) = none := by
  refine ⟨by decide, by decide, by decide⟩

/-- State used against C7: `connecting` and `pending_send` both set
(send queue empty). -/
def c7sock : Socket :=
  { connecting := true, pending_send := true }

/-- C7 counterexample: when `connecting` and `pending_send` hold
simultaneously the watcher sets the write bit, while the claimed rule
"(send queue non-empty OR connecting) AND NOT pending_send" would clear
it. -/
theorem c7_counterexample :
    watcher_write_bit c7sock = true ∧ spec_write_bit c7sock = false := by
  decide

/-- C7 as amended: the watcher sets the write bit iff `connecting` holds
or (the send queue is non-empty and `pending_send` is not set); in
particular the bit is set, not cleared, when `connecting` and
`pending_send` hold simultaneously. -/
theorem c7_amended_write_bit (sock : Socket) :
    watcher_write_bit sock
      = (sock.connecting
         || (!sock.send_list.isEmpty && !sock.pending_send)) := by
  unfold watcher_write_bit
  cases h1 : sock.send_list.isEmpty <;>
    cases h2 : sock.pending_send <;>
    cases h3 : sock.connecting <;>
    simp [h1, h2, h3]

/-- C8 counterexample: `isc_socket_cancel` with the empty mask takes the
quick exit and returns without poking the watcher, contradicting the
claim that a poke is issued for every value of the mask. -/
theorem c8_counterexample :
    isc_socket_cancel {} none {} = some ⟨{}, [], [], [], [], false⟩ := by
  decide

/-- C8 as amended: every `isc_socket_cancel` call with a non-empty mask
that passes its connect-branch INSIST (guaranteed by the invariant that
a queued connect event implies `connecting`) issues a watcher poke
before returning; with the empty mask the call returns immediately
without poking. -/
theorem c8_amended_cancel_pokes (sock : Socket) (task : Option Nat)
    (how : CancelHow) (hnz : how ≠ {})
    (hinv : sock.connect_ev ≠ none → sock.connecting = true) :
    ∃ out, isc_socket_cancel sock task how = some out ∧ out.poked = true := by
  unfold isc_socket_cancel
  rw [if_neg hnz]
  by_cases hce : sock.connect_ev = none
  · simp only [hce]
    simp
  · have hcg : sock.connecting = true := hinv hce
    obtain ⟨dev, hdev⟩ := Option.ne_none_iff_exists'.mp hce
    simp only [hdev, hcg]
    by_cases hhc : how.connect = true <;>
      by_cases hmatch : cancelMatch task dev.sender = true <;>
      simp [hhc, hmatch]

/-- Witness for `c8_amended_cancel_pokes` at a socket with one queued
recv request, cancelling everything in the recv category. -/
theorem c8_amended_cancel_pokes_witness :
    (({ recv_list := [{ sender := 3 }] } : Socket).connect_ev ≠ none →
       ({ recv_list := [{ sender := 3 }] } : Socket).connecting = true) ∧
    ({ recv := true } : CancelHow) ≠ {} ∧
    ∃ out, isc_socket_cancel { recv_list := [{ sender := 3 }] } none
             { recv := true } = some out ∧ out.poked = true :=
  ⟨by decide, by decide,
   c8_amended_cancel_pokes { recv_list := [{ sender := 3 }] } none
     { recv := true } (by decide) (by decide)⟩

/-- C9: the delivery helpers `send_recvdone_event` / `send_senddone_event`
add the FATALERROR attribute exactly when the sticky result for that
direction is non-success, and never elsewhere: when sticky is Success
the delivered event keeps the request's prior flag (false for freshly
allocated requests), and `doio_recv`/`doio_send` never set the flag on
the pending request itself. -/
theorem c9_fatal_flag (sock : Socket) (dev : SocketEvent) (code : IscResult)
    (t : EventType) (s : Nat) :
    (sock.recv_result ≠ .success →
      (deliver_recvdone sock dev code).fatalError = true) ∧
    (sock.recv_result = .success →
      (deliver_recvdone sock dev code).fatalError = dev.fatalError) ∧
    (sock.send_result ≠ .success →
      (deliver_senddone sock dev code).fatalError = true) ∧
    (sock.send_result = .success →
      (deliver_senddone sock dev code).fatalError = dev.fatalError) ∧
    (allocate_socketevent t s).fatalError = false ∧
    (∀ sys, (doio_recv sock dev sys).dev.fatalError = dev.fatalError) ∧
    (∀ sys, (doio_send sock dev sys).dev.fatalError = dev.fatalError) := by
  refine ⟨?_, ?_, ?_, ?_, rfl, ?_, ?_⟩
  · intro h
    simp [deliver_recvdone, h]
  · intro h
    simp [deliver_recvdone, h]
  · intro h
    simp [deliver_senddone, h]
  · intro h
    simp [deliver_senddone, h]
  · intro sys
    rcases sys with e | cc
    · by_cases hs : softError e = true <;>
        simp [doio_recv, soft_or_hard_recv, hs] <;>
        split_ifs <;> simp
    · simp [doio_recv]
      split_ifs <;> simp
  · intro sys
    rcases sys with e | cc
    · by_cases hs : softError e = true <;>
        simp [doio_send, soft_or_hard_send, hs] <;>
        split_ifs <;> simp
    · simp [doio_send]
      split_ifs <;> simp

/-- Witness for `c9_fatal_flag`: delivery on a socket with sticky EOF
sets the flag, delivery on a healthy socket leaves it clear. -/
theorem c9_fatal_flag_witness :
    (({ recv_result := .eof } : Socket).recv_result ≠ .success ∧
     (deliver_recvdone { recv_result := .eof } {} .eof).fatalError = true) ∧
    (({} : Socket).recv_result = .success ∧
     (deliver_recvdone {} {} .success).fatalError = false) :=
  ⟨⟨by decide,
    (c9_fatal_flag { recv_result := .eof } {} .eof .recvDone 0).1 (by decide)⟩,
   ⟨rfl, by
    have h := (c9_fatal_flag {} {} .success .recvDone 0).2.1 rfl
    simpa using h⟩⟩

/-- C10: on a datagram socket, a recv request with remaining capacity
(`read_count > 0`) for which `recvmsg` returns 0 bytes takes the SOFT
path of `doio_recv` — the forced minimum of 1 exceeds `dev->n = 0` and
0 differs from `read_count` — so no completion event is emitted; the
inline `isc_socket_recvv` consequently queues the request and delivers
nothing, dropping the empty datagram. -/
theorem c10_empty_datagram_soft (sock : Socket) (cap mini task : Nat)
    (hudp : sock.type = .udp) (hcap : 0 < cap)
    (hres : sock.recv_result = .success) (hq : sock.recv_list = []) :
    (∀ dev : SocketEvent, dev.n = 0 → dev.minimum = 1 → dev.capacity = cap →
      (doio_recv sock dev (.ok 0)).res = .soft ∧
      (doio_recv sock dev (.ok 0)).events = []) ∧
    (isc_socket_recvv sock cap mini task (.ok 0)).events = [] ∧
    (isc_socket_recvv sock cap mini task (.ok 0)).sock.recv_list.length
      = 1 ∧
    (isc_socket_recvv sock cap mini task (.ok 0)).kernelCalls = 1 := by
  have hdoio : ∀ dev : SocketEvent, dev.n = 0 → dev.minimum = 1 →
      dev.capacity = cap →
      (doio_recv sock dev (.ok 0)).res = .soft ∧
      (doio_recv sock dev (.ok 0)).events = [] := by
    intro dev hn hmin hc
    have hne : ¬ (0 = cap) := by omega
    simp [doio_recv, hudp, hn, hmin, hc, hne]
  refine ⟨hdoio, ?_⟩
  have he : sock.recv_list.isEmpty = true := by simp [hq]
  have hne : ¬ (0 = cap) := by omega
  simp [isc_socket_recvv, he, allocate_socketevent, hudp, hres, doio_recv,
        hne, hq]

/-- Witness for `c10_empty_datagram_soft` at a datagram socket with a
32-byte region. -/
theorem c10_empty_datagram_soft_witness :
    (({ type := .udp } : Socket).type = SocketType.udp ∧ 0 < 32 ∧
     ({ type := .udp } : Socket).recv_result = .success ∧
     ({ type := .udp } : Socket).recv_list = []) ∧
    ((isc_socket_recvv { type := .udp } 32 0 6 (.ok 0)).events = [] ∧
     (isc_socket_recvv { type := .udp } 32 0 6
        (.ok 0)).sock.recv_list.length = 1 ∧
     (isc_socket_recvv { type := .udp } 32 0 6 (.ok 0)).kernelCalls = 1) :=
  ⟨⟨by decide, by decide, by decide, by decide⟩,
   (c10_empty_datagram_soft { type := .udp } 32 0 6 (by decide) (by decide)
      (by decide) (by decide)).2⟩
